import Mathlib

/-!
Verification of the Network Inventory device lifecycle engine.

The definitions below are a shallow embedding of the repository's backend:
the relational state (tables from `database_setup.sql`), the query layer
(`backend/queries.js`) and the Express route handlers (the unnamed server
file).  SQL statements are modelled as pure functions on an explicit state
record; each route handler is a function from the pre-state and the request
to a result (`Except` of an API error) together with the post-state.
JavaScript truthiness on optional values (`x || null` and friends) is
modelled explicitly via `optOfNat` / `optOfStr` / `natFalsy` / `strFalsy`.
-/

namespace NetInv

/-- JS `n || null` for a numeric value: `0` is falsy and becomes SQL NULL. -/
def optOfNat (n : Nat) : Option Nat := if n = 0 then none else some n

/-- JS `s || null` for a string value: the empty string is falsy and becomes SQL NULL. -/
def optOfStr (s : String) : Option String := if s = "" then none else some s

/-- JS falsiness of a possibly-undefined string (`undefined` or `""`). -/
def strFalsy : Option String → Bool
  | none => true
  | some s => s == ""

/-- JS falsiness of a possibly-undefined number (`undefined` or `0`). -/
def natFalsy : Option Nat → Bool
  | none => true
  | some n => n == 0

/-- A row of `device_types` or `manufacturers` (id + unique display name). -/
structure Lookup where
  id : Nat
  name : String
  deriving DecidableEq

/-- A row of the `devices` table (`database_setup.sql`). -/
structure Device where
  id : Nat
  hostname : String
  ip_address : String
  device_type : String
  device_type_id : Option Nat
  manufacturer_id : Option Nat
  location : Option String
  status : String
  notes : Option String
  assigned_user_id : Option Nat
  assigned_at : Option Nat
  created_at : Nat
  deriving DecidableEq

/-- A row of the `device_files` table. -/
structure DeviceFile where
  id : Nat
  device_id : Nat
  filename : String
  storage_path : String
  version : Nat
  content_type : Option String
  file_size : Option Nat
  uploaded_at : Nat
  deriving DecidableEq

/-- The structured `details` payloads that `index.js` passes to
`addHistoryEntry` (the source stores them JSON-stringified). -/
inductive HDetails where
  | empty
  | assignedTo (userId : Nat)
  | statusChanged (fromStatus toStatus : String)
  deriving DecidableEq

/-- A row of the `device_history` table. -/
structure HistoryEntry where
  id : Nat
  device_id : Nat
  action : String
  user_id : Option Nat
  details : Option HDetails
  created_at : Nat
  deriving DecidableEq

/-- A row of the `users` table (password hash omitted; no claim touches it). -/
structure UserRec where
  id : Nat
  name : String
  email : String
  role : String
  active : Bool
  created_at : Nat
  deriving DecidableEq

/-- The relational store: one list per table, in insertion order
(SERIAL ids are modelled as max-id-plus-one). -/
structure St where
  devices : List Device
  device_files : List DeviceFile
  device_history : List HistoryEntry
  users : List UserRec
  device_types : List Lookup
  manufacturers : List Lookup
  deriving DecidableEq

/-- The limited user info `index.js` keeps in `req.session.user`. -/
structure SessionUser where
  id : Nat
  name : String
  email : String
  role : String
  deriving DecidableEq

/-- JS `req.session.user?.id || null` (`0` is falsy). -/
def actorId : Option SessionUser → Option Nat
  | none => none
  | some u => optOfNat u.id

/-- Insertion step for an ascending sort by a numeric key (models `ORDER BY ... ASC`). -/
def insertByKey (key : α → Nat) (x : α) : List α → List α
  | [] => [x]
  | y :: ys => if key x ≤ key y then x :: y :: ys else y :: insertByKey key x ys

/-- Ascending sort by a numeric key. -/
def sortByKey (key : α → Nat) (l : List α) : List α := l.foldr (insertByKey key) []

/-- Insertion step for a descending sort by a numeric key (models `ORDER BY ... DESC`). -/
def insertByKeyDesc (key : α → Nat) (x : α) : List α → List α
  | [] => [x]
  | y :: ys => if key y ≤ key x then x :: y :: ys else y :: insertByKeyDesc key x ys

/-- Descending sort by a numeric key. -/
def sortByKeyDesc (key : α → Nat) (l : List α) : List α := l.foldr (insertByKeyDesc key) []

/-- A device row as returned by `getDevices` / `getDeviceById` in `queries.js`:
the `devices` columns denormalized with the LEFT-JOINed user and lookup names. -/
structure DeviceRow where
  id : Nat
  hostname : String
  ip_address : String
  device_type : String
  device_type_id : Option Nat
  manufacturer_id : Option Nat
  location : Option String
  status : String
  notes : Option String
  assigned_user_id : Option Nat
  assigned_at : Option Nat
  created_at : Nat
  assigned_to_name : Option String
  assigned_to_email : Option String
  device_type_name : Option String
  manufacturer_name : Option String
  deriving DecidableEq

/-- The LEFT JOINs of `getDevices` / `getDeviceById` applied to one device. -/
def denorm (st : St) (d : Device) : DeviceRow :=
  { id := d.id, hostname := d.hostname, ip_address := d.ip_address,
    device_type := d.device_type, device_type_id := d.device_type_id,
    manufacturer_id := d.manufacturer_id, location := d.location,
    status := d.status, notes := d.notes,
    assigned_user_id := d.assigned_user_id, assigned_at := d.assigned_at,
    created_at := d.created_at,
    assigned_to_name :=
      (d.assigned_user_id.bind (fun u => st.users.find? (fun x => x.id == u))).map (fun x => x.name),
    assigned_to_email :=
      (d.assigned_user_id.bind (fun u => st.users.find? (fun x => x.id == u))).map (fun x => x.email),
    device_type_name :=
      (d.device_type_id.bind (fun t => st.device_types.find? (fun x => x.id == t))).map (fun x => x.name),
    manufacturer_name :=
      (d.manufacturer_id.bind (fun m => st.manufacturers.find? (fun x => x.id == m))).map (fun x => x.name) }

/-- `queries.getDevices`: all devices, denormalized, `ORDER BY d.id ASC`.
The source function accepts no parameter. -/
def getDevices (st : St) : List DeviceRow :=
  (sortByKey (fun d => d.id) st.devices).map (denorm st)

/-- `queries.getDeviceById`: the denormalized device with the given id, if any. -/
def getDeviceById (st : St) (i : Nat) : Option DeviceRow :=
  (st.devices.find? (fun d => d.id == i)).map (denorm st)

/-- The query-string filters the `GET /devices` route builds from the request. -/
structure Filters where
  search : Option String
  status : Option String
  deriving DecidableEq

/-- The `GET /devices` data path: the route builds `filters` and passes them to
`getDevices`, but `queries.getDevices` takes no parameter, so the filters are
dropped and every device is returned. -/
def listDevices (st : St) (_filters : Filters) : List DeviceRow := getDevices st

/-- Case-insensitive (ASCII) character comparison, for the spec-side search predicate. -/
def lowerNat (c : Char) : Nat :=
  if 65 ≤ c.toNat && c.toNat ≤ 90 then c.toNat + 32 else c.toNat

/-- Whether the first list is a case-insensitive leading segment of the second. -/
def leadsWithCI : List Char → List Char → Bool
  | [], _ => true
  | _ :: _, [] => false
  | a :: as, b :: bs => lowerNat a == lowerNat b && leadsWithCI as bs

/-- Whether the first list occurs as a case-insensitive contiguous segment of the second. -/
def containsCI (needle : List Char) : List Char → Bool
  | [] => needle.isEmpty
  | c :: rest => leadsWithCI needle (c :: rest) || containsCI needle rest

/-- Modelled from the spec: the `search` filter is a case-insensitive substring
match against `hostname` OR `ip_address`.  This is the spec-side predicate the
source is checked against; `queries.getDevices` implements no such filter. -/
def specSearchMatches (q : String) (r : DeviceRow) : Bool :=
  containsCI q.data r.hostname.data || containsCI q.data r.ip_address.data

/-! ## Attachment store (`queries.js`) -/

/-- Maximum of a list of naturals with 0 for the empty list
(SQL `COALESCE(MAX(version), 0)`). -/
def listMax (l : List Nat) : Nat := l.foldr Nat.max 0

/-- The versions recorded in `device_files` for one device, in insertion order. -/
def versionsOf (st : St) (dev : Nat) : List Nat :=
  (st.device_files.filter (fun f => f.device_id == dev)).map (fun f => f.version)

/-- `queries.getNextFileVersion`: `COALESCE(MAX(version), 0) + 1` over the device's files. -/
def getNextFileVersion (st : St) (dev : Nat) : Nat :=
  listMax (versionsOf st dev) + 1

/-- Next SERIAL id for `device_files`. -/
def nextFileId (st : St) : Nat := listMax (st.device_files.map (fun f => f.id)) + 1

/-- Next SERIAL id for `device_history`. -/
def nextHistId (st : St) : Nat := listMax (st.device_history.map (fun h => h.id)) + 1

/-- Next SERIAL id for `devices`. -/
def nextDeviceId (st : St) : Nat := listMax (st.devices.map (fun d => d.id)) + 1

/-- Database-level errors surfaced by single INSERT statements. -/
inductive DbErr where
  | conflict
  deriving DecidableEq

/-- The data `index.js` passes to `queries.addDeviceFile`. -/
structure FileData where
  device_id : Nat
  filename : String
  storage_path : String
  content_type : Option String
  file_size : Option Nat
  deriving DecidableEq

/-- The `device_files` row `addDeviceFile` builds for a given version
(`content_type || null`, `file_size || null`). -/
def mkFileRow (st : St) (d : FileData) (version now : Nat) : DeviceFile :=
  { id := nextFileId st, device_id := d.device_id, filename := d.filename,
    storage_path := d.storage_path, version := version,
    content_type := d.content_type.bind optOfStr,
    file_size := d.file_size.bind optOfNat,
    uploaded_at := now }

/-- The INSERT into `device_files`: the schema's `UNIQUE (device_id, version)`
constraint turns a duplicate version slot into a conflict error, leaving the
table unchanged (single-statement atomicity). -/
def insertDeviceFile (st : St) (f : DeviceFile) : Except DbErr (St × DeviceFile) :=
  if st.device_files.any (fun g => g.device_id == f.device_id && g.version == f.version) then
    .error .conflict
  else
    .ok ({ st with device_files := st.device_files ++ [f] }, f)

/-- `queries.addDeviceFile`: reads the next version with `getNextFileVersion`,
then inserts the metadata row — two separate statements, no transaction and no
retry on conflict. -/
def addDeviceFile (st : St) (d : FileData) (now : Nat) : Except DbErr (St × DeviceFile) :=
  insertDeviceFile st (mkFileRow st d (getNextFileVersion st d.device_id) now)

/-- One upload request in a sequential series. -/
structure UploadInput where
  filename : String
  storage_path : String
  content_type : Option String
  file_size : Option Nat
  now : Nat
  deriving DecidableEq

/-- A sequence of `addDeviceFile` calls for one device, one after the other,
collecting each call's outcome. -/
def seqUploads (st : St) (dev : Nat) : List UploadInput → St × List (Except DbErr DeviceFile)
  | [] => (st, [])
  | u :: us =>
    match addDeviceFile st
        { device_id := dev, filename := u.filename, storage_path := u.storage_path,
          content_type := u.content_type, file_size := u.file_size } u.now with
    | .error e =>
      let rest := seqUploads st dev us
      (rest.1, .error e :: rest.2)
    | .ok (st1, f) =>
      let rest := seqUploads st1 dev us
      (rest.1, .ok f :: rest.2)

/-- Two concurrent `addDeviceFile` calls interleaved on the racy schedule the
spec warns about: both version reads happen against the same pre-state, then
the two inserts run in order.  Each SQL statement is atomic; nothing groups
the read with its insert. -/
def concurrentPairUploads (st : St) (d1 d2 : FileData) (t1 t2 : Nat) :
    Except DbErr DeviceFile × Except DbErr DeviceFile × St :=
  let v1 := getNextFileVersion st d1.device_id
  let v2 := getNextFileVersion st d2.device_id
  match insertDeviceFile st (mkFileRow st d1 v1 t1) with
  | .error e1 =>
    match insertDeviceFile st (mkFileRow st d2 v2 t2) with
    | .error e2 => (.error e1, .error e2, st)
    | .ok (st2, g2) => (.error e1, .ok g2, st2)
  | .ok (st1, g1) =>
    match insertDeviceFile st1 (mkFileRow st1 d2 v2 t2) with
    | .error e2 => (.ok g1, .error e2, st1)
    | .ok (st2, g2) => (.ok g1, .ok g2, st2)

/-- `queries.getDeviceFiles`: the device's files, `ORDER BY version DESC, uploaded_at DESC`. -/
def getDeviceFiles (st : St) (dev : Nat) : List DeviceFile :=
  sortByKeyDesc (fun f => f.uploaded_at)
    (sortByKeyDesc (fun f => f.version)
      (st.device_files.filter (fun f => f.device_id == dev)))

/-! ## History ledger and assignment manager (`queries.js`) -/

/-- `queries.addHistoryEntry`: a pure INSERT into `device_history`. -/
def addHistoryEntry (st : St) (device_id : Nat) (action : String)
    (user_id : Option Nat) (details : Option HDetails) (now : Nat) : St × HistoryEntry :=
  let e : HistoryEntry :=
    { id := nextHistId st, device_id := device_id, action := action,
      user_id := user_id, details := details, created_at := now }
  ({ st with device_history := st.device_history ++ [e] }, e)

/-- `queries.getDeviceHistory`: the device's entries, `ORDER BY created_at DESC`
(the display-only join of the actor's name and email is omitted). -/
def getDeviceHistory (st : St) (dev : Nat) : List HistoryEntry :=
  sortByKeyDesc (fun h => h.created_at)
    (st.device_history.filter (fun h => h.device_id == dev))

/-- The row effect of the assignment UPDATE statement. -/
def setAssign (deviceId userId now : Nat) (st : St) : St :=
  { st with devices := st.devices.map (fun d =>
      if d.id == deviceId then
        { d with assigned_user_id := some userId, assigned_at := some now }
      else d) }

/-- `queries.assignDeviceToUser`: `UPDATE devices SET assigned_user_id = $1,
assigned_at = NOW() WHERE id = $2`, then `getDeviceById`. -/
def assignDeviceToUser (st : St) (deviceId userId now : Nat) : St × Option DeviceRow :=
  (setAssign deviceId userId now st, getDeviceById (setAssign deviceId userId now st) deviceId)

/-- The row effect of the check-in UPDATE statement. -/
def clearAssign (deviceId : Nat) (st : St) : St :=
  { st with devices := st.devices.map (fun d =>
      if d.id == deviceId then
        { d with assigned_user_id := none, assigned_at := none }
      else d) }

/-- `queries.unassignDevice`: `UPDATE devices SET assigned_user_id = NULL,
assigned_at = NULL WHERE id = $1`, then `getDeviceById`. -/
def unassignDevice (st : St) (deviceId : Nat) : St × Option DeviceRow :=
  (clearAssign deviceId st, getDeviceById (clearAssign deviceId st) deviceId)

/-- The claim's assignment invariant: `assigned_user_id` set iff `assigned_at` set. -/
def assignedConsistent (d : Device) : Prop :=
  d.assigned_user_id.isSome ↔ d.assigned_at.isSome

instance (d : Device) : Decidable (assignedConsistent d) := by
  unfold assignedConsistent
  infer_instance

/-! ## Device create and update (`queries.js`) -/

/-- `queries.getDeviceTypeName`: `if (!id) return null`, else the lookup name or null. -/
def getDeviceTypeName (st : St) (i : Option Nat) : Option String :=
  if natFalsy i then none
  else (st.device_types.find? (fun t => t.id == i.getD 0)).map (fun t => t.name)

/-- The request body of `POST /devices` (also the data object handed to
`queries.createDevice`); absent JSON fields are `none`. -/
structure CreateBody where
  hostname : Option String
  ip_address : Option String
  device_type : Option String
  device_type_id : Option Nat
  manufacturer_id : Option Nat
  location : Option String
  status : Option String
  notes : Option String
  deriving DecidableEq

/-- `queries.createDevice`: resolves the free-text type (falling back to the
lookup name, then `'Other'`), applies `|| null` defaults and `status || 'active'`,
and inserts the new row. -/
def createDevice (st : St) (b : CreateBody) (now : Nat) : St × Device :=
  let resolvedType :=
    if strFalsy b.device_type then getDeviceTypeName st b.device_type_id else b.device_type
  let d : Device :=
    { id := nextDeviceId st,
      hostname := b.hostname.getD "",
      ip_address := b.ip_address.getD "",
      device_type := (resolvedType.bind optOfStr).getD "Other",
      device_type_id := b.device_type_id.bind optOfNat,
      manufacturer_id := b.manufacturer_id.bind optOfNat,
      location := b.location.bind optOfStr,
      status := if strFalsy b.status then "active" else b.status.getD "active",
      notes := b.notes.bind optOfStr,
      assigned_user_id := none, assigned_at := none, created_at := now }
  ({ st with devices := st.devices ++ [d] }, d)

/-- The data object `queries.updateDevice` receives: outer `none` is a JS
`undefined` field (left untouched); the inner option on nullable columns is
the stored value (`none` = SQL NULL). -/
structure UpdateData where
  hostname : Option String
  ip_address : Option String
  device_type : Option String
  device_type_id : Option (Option Nat)
  manufacturer_id : Option (Option Nat)
  location : Option (Option String)
  status : Option String
  notes : Option (Option String)
  assigned_user_id : Option (Option Nat)
  assigned_at : Option (Option Nat)
  deriving DecidableEq

/-- The dynamic `SET` list of `queries.updateDevice` applied to one row:
supplied fields overwrite, absent fields are untouched. -/
def applyUpdate (d : Device) (b : UpdateData) : Device :=
  { d with
    hostname := b.hostname.getD d.hostname,
    ip_address := b.ip_address.getD d.ip_address,
    device_type := b.device_type.getD d.device_type,
    device_type_id := b.device_type_id.getD d.device_type_id,
    manufacturer_id := b.manufacturer_id.getD d.manufacturer_id,
    location := b.location.getD d.location,
    status := b.status.getD d.status,
    notes := b.notes.getD d.notes,
    assigned_user_id := b.assigned_user_id.getD d.assigned_user_id,
    assigned_at := b.assigned_at.getD d.assigned_at }

/-- Whether `queries.updateDevice` has no field to update (`fields.length === 0`). -/
def noUpdateFields (b : UpdateData) : Bool :=
  b.hostname.isNone && b.ip_address.isNone && b.device_type.isNone &&
  b.device_type_id.isNone && b.manufacturer_id.isNone && b.location.isNone &&
  b.status.isNone && b.notes.isNone && b.assigned_user_id.isNone && b.assigned_at.isNone

/-- `queries.updateDevice`: with no supplied field it just reads the device
back; otherwise it updates the matching row and returns it (`RETURNING *`),
or `null` when the id does not exist. -/
def updateDevice (st : St) (i : Nat) (b : UpdateData) : St × Option Device :=
  if noUpdateFields b then
    (st, st.devices.find? (fun d => d.id == i))
  else
    match st.devices.find? (fun d => d.id == i) with
    | none => (st, none)
    | some d =>
      let d2 := applyUpdate d b
      ({ st with devices := st.devices.map (fun x => if x.id == i then d2 else x) }, some d2)

/-- `queries.deleteDevice`: `DELETE FROM devices WHERE id = $1 RETURNING *`;
the schema cascades the device's `device_files` (and history) rows. -/
def deleteDevice (st : St) (i : Nat) : St × Option Device :=
  match st.devices.find? (fun d => d.id == i) with
  | none => (st, none)
  | some d =>
    ({ st with devices := st.devices.filter (fun x => !(x.id == i)),
               device_files := st.device_files.filter (fun f => !(f.device_id == i)),
               device_history := st.device_history.filter (fun h => !(h.device_id == i)) },
     some d)

/-! ## Route handlers (the Express server file) -/

/-- The response classes the handlers produce on failure. -/
inductive ApiErr where
  | badRequest
  | notFound
  | unauthorized
  | conflict
  | serverError
  deriving DecidableEq

/-- The route-level IPv4 check: `^(?:[0-9]{1,3}\.){3}[0-9]{1,3}$` —
four groups of 1–3 digits separated by dots. -/
def ipv4Format (s : String) : Bool :=
  let parts := s.splitOn "."
  parts.length == 4 &&
    parts.all (fun p => decide (1 ≤ p.length) && decide (p.length ≤ 3) && p.all Char.isDigit)

/-- The status enum the routes validate against. -/
def validStatuses : List String := ["active", "inactive", "maintenance"]

/-- Whether a supplied status passes the route check. -/
def statusValid (s : String) : Bool := validStatuses.contains s

/-- Boolean success test on a route result. -/
def isOkE : Except ε α → Bool
  | .ok _ => true
  | .error _ => false

/-- `POST /devices`: field presence, IPv4, lookup-id and status validation,
then `createDevice`.  `insertOk` models whether the single INSERT statement
succeeds at the datastore; a failed INSERT leaves no row. -/
def createRoute (st : St) (b : CreateBody) (now : Nat) (insertOk : Bool) :
    Except ApiErr Device × St :=
  if strFalsy b.hostname || strFalsy b.ip_address ||
      (strFalsy b.device_type && natFalsy b.device_type_id) then
    (.error .badRequest, st)
  else if !ipv4Format (b.ip_address.getD "") then
    (.error .badRequest, st)
  else if !natFalsy b.device_type_id &&
      !(st.device_types.any (fun t => t.id == b.device_type_id.getD 0)) then
    (.error .badRequest, st)
  else if !natFalsy b.manufacturer_id &&
      !(st.manufacturers.any (fun m => m.id == b.manufacturer_id.getD 0)) then
    (.error .badRequest, st)
  else if !strFalsy b.status && !statusValid (b.status.getD "") then
    (.error .badRequest, st)
  else if insertOk then
    let r := createDevice st b now
    (.ok r.2, r.1)
  else
    (.error .serverError, st)

/-- The request body of `PUT /devices/:id`; the route never passes the
assignment fields. -/
structure PutBody where
  hostname : Option String
  ip_address : Option String
  device_type : Option String
  device_type_id : Option Nat
  manufacturer_id : Option Nat
  location : Option String
  status : Option String
  notes : Option String
  deriving DecidableEq

/-- The update object `PUT /devices/:id` hands to `queries.updateDevice`. -/
def toUpdateData (b : PutBody) : UpdateData :=
  { hostname := b.hostname, ip_address := b.ip_address, device_type := b.device_type,
    device_type_id := b.device_type_id.map some,
    manufacturer_id := b.manufacturer_id.map some,
    location := b.location.map some, status := b.status,
    notes := b.notes.map some, assigned_user_id := none, assigned_at := none }

/-- The `PUT /devices/:id` guard on `ip_address` (validated only when truthy). -/
def putIpGuard (b : PutBody) : Bool :=
  !strFalsy b.ip_address && !ipv4Format (b.ip_address.getD "")

/-- The `PUT /devices/:id` guard on `device_type_id` (checked only when truthy). -/
def putTypeGuard (st : St) (b : PutBody) : Bool :=
  !natFalsy b.device_type_id && !(st.device_types.any (fun t => t.id == b.device_type_id.getD 0))

/-- The `PUT /devices/:id` guard on `manufacturer_id` (checked only when truthy). -/
def putManGuard (st : St) (b : PutBody) : Bool :=
  !natFalsy b.manufacturer_id && !(st.manufacturers.any (fun m => m.id == b.manufacturer_id.getD 0))

/-- The `PUT /devices/:id` guard on `status` (checked only when truthy). -/
def putStatusGuard (b : PutBody) : Bool :=
  !strFalsy b.status && !statusValid (b.status.getD "")

/-- `PUT /devices/:id`: validation, existence check, partial update, and —
when the stored status actually changed — one `status_changed` history entry
with the old and new value, appended in the same call. -/
def putDevice (st : St) (p : Option SessionUser) (idParam : Option Nat)
    (b : PutBody) (now : Nat) : Except ApiErr (Option Device) × St :=
  match idParam with
  | none => (.error .badRequest, st)
  | some i =>
    if putIpGuard b then (.error .badRequest, st)
    else if putTypeGuard st b then (.error .badRequest, st)
    else if putManGuard st b then (.error .badRequest, st)
    else if putStatusGuard b then (.error .badRequest, st)
    else
      match getDeviceById st i with
      | none => (.error .notFound, st)
      | some existing =>
        let r := updateDevice st i (toUpdateData b)
        match r.2 with
        | some d2 =>
          if existing.status != d2.status then
            let r2 := addHistoryEntry r.1 i "status_changed" (actorId p)
              (some (.statusChanged existing.status d2.status)) now
            (.ok (some d2), r2.1)
          else
            (.ok (some d2), r.1)
        | none => (.ok none, r.1)

/-- What multer exposes as `req.file` after storing the blob. -/
structure UploadedFile where
  originalname : String
  mimetype : String
  size : Nat
  deriving DecidableEq

/-- The multer filename sanitizer `originalname.replace(/\s+/g, '_')`:
every maximal whitespace run becomes a single underscore.  The flag records
whether the previous character was whitespace. -/
def collapseWsAux : Bool → List Char → List Char
  | _, [] => []
  | prevWs, c :: cs =>
    if c.isWhitespace then
      (if prevWs then [] else ['_']) ++ collapseWsAux true cs
    else
      c :: collapseWsAux false cs

/-- Filename sanitization used in the storage locator. -/
def sanitizeFilename (s : String) : String := ⟨collapseWsAux false s.data⟩

/-- The collision-resistant storage locator multer builds:
`uploads/device-<id>-<timestamp>-<sanitized name>`. -/
def storagePathFor (deviceId now : Nat) (originalname : String) : String :=
  "uploads/device-" ++ toString deviceId ++ "-" ++ toString now ++ "-" ++
    sanitizeFilename originalname

/-- The multer upload size limit: `5 * 1024 * 1024` bytes. -/
def maxFileSize : Nat := 5 * 1024 * 1024

/-- Whether multer's 5 MiB `fileSize` limit fires for the request. -/
def overLimit : Option UploadedFile → Bool
  | some f => decide (maxFileSize < f.size)
  | none => false

/-- `POST /devices/:id/files`: the multer size limit aborts oversized requests
before the handler runs; the handler then checks the id, the device, and the
presence of `req.file`, and records the metadata via `addDeviceFile`.
Note there is no check that the uploaded bytes are non-empty. -/
def uploadRoute (st : St) (idParam : Option Nat) (file : Option UploadedFile)
    (now : Nat) : Except ApiErr DeviceFile × St :=
  if overLimit file then
    (.error .serverError, st)
  else
    match idParam with
    | none => (.error .badRequest, st)
    | some i =>
      match getDeviceById st i with
      | none => (.error .notFound, st)
      | some _ =>
        match file with
        | none => (.error .badRequest, st)
        | some f =>
          match addDeviceFile st
              { device_id := i, filename := f.originalname,
                storage_path := storagePathFor i now f.originalname,
                content_type := some f.mimetype, file_size := some f.size } now with
          | .error _ => (.error .serverError, st)
          | .ok (st2, rec) => (.ok rec, st2)

/-- `POST /devices/:id/assign`: gated by `requireAuth`; validates the id, the
target user's existence and active flag; updates the assignment fields; then
appends the `assigned` history entry.  `histOk` models whether the separate
history INSERT statement succeeds at the datastore — nothing groups it with
the assignment UPDATE in a transaction. -/
def assignRoute (st : St) (p : Option SessionUser) (idParam userIdParam : Option Nat)
    (now : Nat) (histOk : Bool) : Except ApiErr (Option DeviceRow) × St :=
  match p with
  | none => (.error .unauthorized, st)
  | some u =>
    match idParam with
    | none => (.error .badRequest, st)
    | some i =>
      if natFalsy userIdParam then (.error .badRequest, st)
      else
        match getDeviceById st i with
        | none => (.error .notFound, st)
        | some _ =>
          match st.users.find? (fun x => x.id == userIdParam.getD 0) with
          | none => (.error .badRequest, st)
          | some usr =>
            if !usr.active then (.error .badRequest, st)
            else
              let r := assignDeviceToUser st i (userIdParam.getD 0) now
              if histOk then
                let r2 := addHistoryEntry r.1 i "assigned" (actorId (some u))
                  (some (.assignedTo (userIdParam.getD 0))) now
                (.ok r.2, r2.1)
              else
                (.error .serverError, r.1)

/-- `POST /devices/:id/checkin`: gated by `requireAuth`; clears the assignment
fields regardless of current state, then appends a `checked_in` entry with
empty details. -/
def checkinRoute (st : St) (p : Option SessionUser) (idParam : Option Nat)
    (now : Nat) : Except ApiErr (Option DeviceRow) × St :=
  match p with
  | none => (.error .unauthorized, st)
  | some u =>
    match idParam with
    | none => (.error .badRequest, st)
    | some i =>
      match getDeviceById st i with
      | none => (.error .notFound, st)
      | some _ =>
        let r := unassignDevice st i
        let r2 := addHistoryEntry r.1 i "checked_in" (actorId (some u)) (some .empty) now
        (.ok r.2, r2.1)

/-- `GET /devices/:id/history`: the source registers no `requireAuth`
middleware on this route, so the session principal is unused. -/
def historyRoute (st : St) (_p : Option SessionUser) (idParam : Option Nat) :
    Except ApiErr (List HistoryEntry) × St :=
  match idParam with
  | none => (.error .badRequest, st)
  | some i =>
    match getDeviceById st i with
    | none => (.error .notFound, st)
    | some _ => (.ok (getDeviceHistory st i), st)

/-- `GET /users`: gated by `requireAuth`; returns all users `ORDER BY id ASC`. -/
def usersRoute (st : St) (p : Option SessionUser) : Except ApiErr (List UserRec) × St :=
  match p with
  | none => (.error .unauthorized, st)
  | some _ => (.ok (sortByKey (fun u => u.id) st.users), st)

/-! ## Export formatter (`GET /devices/export`) -/

/-- The per-character body of `String(val).replace(/"/g, a doubled quote)`. -/
def escapeQuotes : List Char → List Char
  | [] => []
  | c :: cs => if c == '"' then '"' :: '"' :: escapeQuotes cs else c :: escapeQuotes cs

/-- The route's `escape` helper: wrap in double quotes, doubling internal ones;
`null`/`undefined` enter as the empty string. -/
def escapeCsv (s : String) : String := "\"" ++ ⟨escapeQuotes s.data⟩ ++ "\""

/-- The fixed CSV header columns, in source order. -/
def csvHeaders : List String :=
  ["hostname", "ip_address", "device_type", "manufacturer", "status", "assigned_to", "location"]

/-- One CSV data row's fields, in source order, with the source's fallbacks
(`device_type_name || device_type`, `manufacturer_name || two quotes`, etc.). -/
def csvFields (r : DeviceRow) : List String :=
  [escapeCsv r.hostname,
   escapeCsv r.ip_address,
   escapeCsv ((r.device_type_name.bind optOfStr).getD r.device_type),
   escapeCsv (r.manufacturer_name.getD ""),
   escapeCsv r.status,
   escapeCsv (r.assigned_to_name.getD ""),
   escapeCsv (r.location.getD "")]

/-- One rendered CSV data row. -/
def csvRow (r : DeviceRow) : String := String.intercalate "," (csvFields r)

/-- The data rows of `GET /devices/export`: one per device of the list result,
in list order. -/
def exportCsvRows (st : St) (f : Filters) : List String :=
  (listDevices st f).map csvRow

/-- The full CSV document: header line then the data rows, joined by newlines. -/
def exportCsv (st : St) (f : Filters) : String :=
  String.intercalate "\n" (String.intercalate "," csvHeaders :: exportCsvRows st f)

/-! ## Concrete fixtures used by witnesses and counterexamples -/

/-- Fixture device 1: a switch, unassigned, active. -/
def devSw : Device :=
  { id := 1, hostname := "sw-01", ip_address := "10.0.0.5", device_type := "Switch",
    device_type_id := none, manufacturer_id := none, location := none,
    status := "active", notes := none, assigned_user_id := none,
    assigned_at := none, created_at := 0 }

/-- Fixture device 2: a router, unassigned, active. -/
def devRt : Device :=
  { id := 2, hostname := "router-9", ip_address := "192.168.1.1", device_type := "Router",
    device_type_id := none, manufacturer_id := none, location := none,
    status := "active", notes := none, assigned_user_id := none,
    assigned_at := none, created_at := 0 }

/-- Fixture user 2: active admin. -/
def userAlice : UserRec :=
  { id := 2, name := "Alice", email := "alice@example.com", role := "admin",
    active := true, created_at := 0 }

/-- Fixture user 3: deactivated account. -/
def userBob : UserRec :=
  { id := 3, name := "Bob", email := "bob@example.com", role := "user",
    active := false, created_at := 0 }

/-- Fixture history row for device 1. -/
def histCreated : HistoryEntry :=
  { id := 1, device_id := 1, action := "created", user_id := none,
    details := none, created_at := 5 }

/-- The shared concrete store: two devices, two users, seeded lookups,
one history row, no files. -/
def stX : St :=
  { devices := [devSw, devRt], device_files := [], device_history := [histCreated],
    users := [userAlice, userBob],
    device_types := [⟨1, "Router"⟩, ⟨2, "Switch"⟩],
    manufacturers := [⟨1, "Cisco"⟩] }

/-- The session principal for Alice. -/
def suAlice : SessionUser :=
  { id := 2, name := "Alice", email := "alice@example.com", role := "admin" }

/-- A concrete upload input. -/
def upA : UploadInput :=
  { filename := "config.txt", storage_path := "uploads/device-1-10-config.txt",
    content_type := some "text/plain", file_size := some 12, now := 10 }

/-- A second concrete upload input. -/
def upB : UploadInput :=
  { filename := "config.txt", storage_path := "uploads/device-1-11-config.txt",
    content_type := some "text/plain", file_size := some 15, now := 11 }

/-- Concrete `addDeviceFile` data for the concurrency schedule (first client). -/
def fdA : FileData :=
  { device_id := 1, filename := "config.txt",
    storage_path := "uploads/device-1-10-config.txt",
    content_type := some "text/plain", file_size := some 12 }

/-- Concrete `addDeviceFile` data for the concurrency schedule (second client). -/
def fdB : FileData :=
  { device_id := 1, filename := "config.txt",
    storage_path := "uploads/device-1-11-config.txt",
    content_type := some "text/plain", file_size := some 15 }

/-- A concrete zero-byte multer file. -/
def emptyFile : UploadedFile :=
  { originalname := "config.txt", mimetype := "text/plain", size := 0 }

/-- A concrete `PUT` body that only changes the status. -/
def putMaint : PutBody :=
  { hostname := none, ip_address := none, device_type := none, device_type_id := none,
    manufacturer_id := none, location := none, status := some "maintenance", notes := none }

/-- A concrete `PUT` body that only changes the notes. -/
def putNotes : PutBody :=
  { hostname := none, ip_address := none, device_type := none, device_type_id := none,
    manufacturer_id := none, location := none, status := none, notes := some "rack moved" }

/-- A concrete multer file one byte over the 5 MiB limit. -/
def bigFile : UploadedFile :=
  { originalname := "big.bin", mimetype := "application/octet-stream",
    size := 5 * 1024 * 1024 + 1 }

/-- A concrete create body with every field missing. -/
def bodyBad : CreateBody :=
  { hostname := none, ip_address := none, device_type := none, device_type_id := none,
    manufacturer_id := none, location := none, status := none, notes := none }

/-- Outcome projection for upload results: the assigned version on success. -/
def resVersion {ε : Type} : Except ε DeviceFile → Option Nat
  | .ok f => some f.version
  | .error _ => none

instance {ε α : Type} [DecidableEq ε] [DecidableEq α] : DecidableEq (Except ε α) := fun x y =>
  match x, y with
  | .ok a, .ok b =>
    if h : a = b then isTrue (by rw [h]) else isFalse (fun hc => h (Except.ok.inj hc))
  | .error a, .error b =>
    if h : a = b then isTrue (by rw [h]) else isFalse (fun hc => h (Except.error.inj hc))
  | .ok _, .error _ => isFalse (fun hc => Except.noConfusion hc)
  | .error _, .ok _ => isFalse (fun hc => Except.noConfusion hc)

/-! ## Helper lemmas -/

theorem foldrMax_init (l : List Nat) (a : Nat) :
    l.foldr Nat.max a = Nat.max (l.foldr Nat.max 0) a := by
  induction l with
  | nil => simp
  | cons x xs ih => simp [List.foldr, ih, Nat.max_assoc]

theorem listMax_append (l : List Nat) (a : Nat) :
    listMax (l ++ [a]) = Nat.max (listMax l) a := by
  unfold listMax
  rw [List.foldr_append]
  simpa using foldrMax_init l a

theorem le_listMax {v : Nat} {l : List Nat} (h : v ∈ l) : v ≤ listMax l := by
  induction l with
  | nil => cases h
  | cons x xs ih =>
    rcases List.mem_cons.mp h with rfl | hm
    · exact Nat.le_max_left _ _
    · exact Nat.le_trans (ih hm) (Nat.le_max_right _ _)

theorem listMax_range1 : ∀ k, listMax (List.range' 1 k) = k
  | 0 => rfl
  | (k + 1) => by
    have hc : List.range' 1 (k + 1) = List.range' 1 k ++ [1 + k] := by
      simpa using @List.range'_concat 1 1 k
    rw [hc, listMax_append, listMax_range1 k]
    have h2 : Nat.max k (1 + k) = 1 + k := Nat.max_eq_right (by omega)
    rw [h2]
    omega

theorem mem_versionsOf {st : St} {dev v : Nat} :
    v ∈ versionsOf st dev ↔ ∃ f ∈ st.device_files, f.device_id = dev ∧ f.version = v := by
  unfold versionsOf
  simp [List.mem_map, List.mem_filter, beq_iff_eq]
  constructor
  · rintro ⟨f, ⟨hf, hdev⟩, hv⟩
    exact ⟨f, hf, hdev, hv⟩
  · rintro ⟨f, hf, hdev, hv⟩
    exact ⟨f, ⟨hf, hdev⟩, hv⟩

theorem any_version_iff (st : St) (dev v : Nat) :
    st.device_files.any (fun g => g.device_id == dev && g.version == v) = true ↔
      v ∈ versionsOf st dev := by
  rw [mem_versionsOf]
  simp [List.any_eq_true, Bool.and_eq_true, beq_iff_eq]

theorem fresh_version_not_mem (st : St) (dev : Nat) :
    getNextFileVersion st dev ∉ versionsOf st dev := by
  intro h
  have hle := le_listMax h
  unfold getNextFileVersion at hle
  omega

theorem addDeviceFile_ok (st : St) (d : FileData) (now : Nat) :
    addDeviceFile st d now =
      .ok ({ st with device_files :=
               st.device_files ++ [mkFileRow st d (getNextFileVersion st d.device_id) now] },
           mkFileRow st d (getNextFileVersion st d.device_id) now) := by
  have h : ¬ (st.device_files.any
      (fun g => g.device_id == d.device_id && g.version == getNextFileVersion st d.device_id)
        = true) := by
    rw [any_version_iff]
    exact fresh_version_not_mem st d.device_id
  simp [addDeviceFile, insertDeviceFile, mkFileRow, h]

theorem versionsOf_append (st : St) (f : DeviceFile) (dev : Nat) :
    versionsOf { st with device_files := st.device_files ++ [f] } dev =
      versionsOf st dev ++ (if f.device_id == dev then [f.version] else []) := by
  unfold versionsOf
  simp only [List.filter_append, List.map_append]
  by_cases hf : (f.device_id == dev) = true <;> simp [List.filter_cons, hf]

theorem seqUploads_inv (us : List UploadInput) (st : St) (dev k : Nat)
    (h : versionsOf st dev = List.range' 1 k) :
    versionsOf (seqUploads st dev us).1 dev = List.range' 1 (k + us.length) ∧
    (seqUploads st dev us).2.map resVersion = (List.range' (k + 1) us.length).map some := by
  induction us generalizing st k with
  | nil => simp [seqUploads, h]
  | cons u us ih =>
    have hnext : getNextFileVersion st dev = k + 1 := by
      unfold getNextFileVersion
      rw [h, listMax_range1]
    have hadd := addDeviceFile_ok st
      { device_id := dev, filename := u.filename, storage_path := u.storage_path,
        content_type := u.content_type, file_size := u.file_size } u.now
    simp only [seqUploads, hadd]
    have h1 : versionsOf
        { st with device_files := st.device_files ++
            [mkFileRow st
              { device_id := dev, filename := u.filename, storage_path := u.storage_path,
                content_type := u.content_type, file_size := u.file_size }
              (getNextFileVersion st dev) u.now] } dev = List.range' 1 (k + 1) := by
      rw [versionsOf_append]
      simp only [mkFileRow, beq_self_eq_true, if_true, hnext, h]
      simpa [Nat.add_comm] using (@List.range'_concat 1 1 k).symm
    obtain ⟨ihA, ihB⟩ := ih _ (k + 1) h1
    constructor
    · have he : k + (u :: us).length = k + 1 + us.length := by
        simp [List.length_cons]
        omega
      rw [he]
      exact ihA
    · have hs : List.range' (k + 1) (u :: us).length =
          (k + 1) :: List.range' (k + 2) us.length := by
        simpa using @List.range'_succ (k + 1) us.length 1
      rw [hs]
      simp only [List.map_cons, List.map_cons]
      rw [ihB]
      simp [resVersion, mkFileRow, hnext]

/-- C1: for a device that starts with no recorded files, a run of sequential
`addFile` uploads all succeed, the i-th receiving version i, leaving the
device's recorded versions exactly 1..n in upload order; the first version
computed is `max existing + 1 = 1`. -/
theorem addFile_sequential_versions (st : St) (dev : Nat) (us : List UploadInput)
    (h : versionsOf st dev = []) :
    getNextFileVersion st dev = 1 ∧
    versionsOf (seqUploads st dev us).1 dev = List.range' 1 us.length ∧
    (seqUploads st dev us).2.map resVersion = (List.range' 1 us.length).map some := by
  have h0 : versionsOf st dev = List.range' 1 0 := by simpa using h
  obtain ⟨hA, hB⟩ := seqUploads_inv us st dev 0 h0
  refine ⟨?_, by simpa using hA, by simpa using hB⟩
  unfold getNextFileVersion
  rw [h]
  rfl

/-- Witness for C1: two uploads against the concrete store give versions 1 then 2. -/
theorem addFile_sequential_versions_witness :
    versionsOf stX 1 = [] ∧
    versionsOf (seqUploads stX 1 [upA, upB]).1 1 = List.range' 1 2 ∧
    (seqUploads stX 1 [upA, upB]).2.map resVersion = (List.range' 1 2).map some := by
  refine ⟨by decide, ?_, ?_⟩
  · exact (addFile_sequential_versions stX 1 [upA, upB] (by decide)).2.1
  · exact (addFile_sequential_versions stX 1 [upA, upB] (by decide)).2.2

/-- C2 counterexample: on the racy read-read-insert-insert schedule, the second
of two concurrent uploads for device 1 hits the `(device_id, version)`
uniqueness constraint and is surfaced as a conflict error — it is not retried —
so the two calls do not yield versions 1..2. -/
theorem concurrent_uploads_cex :
    (concurrentPairUploads stX fdA fdB 10 11).2.1 = .error .conflict ∧
    resVersion (concurrentPairUploads stX fdA fdB 10 11).1 = some 1 ∧
    versionsOf (concurrentPairUploads stX fdA fdB 10 11).2.2 1 = [1] ∧
    ¬ versionsOf (concurrentPairUploads stX fdA fdB 10 11).2.2 1 = List.range' 1 2 := by
  decide

/-- C2 (as amended): `addDeviceFile` computes the version and inserts in two
separate statements with no transaction and no retry loop; when two calls for
the same device interleave their version reads, the first insert wins the slot
and the second surfaces the uniqueness conflict to the caller, leaving only
the first version recorded. -/
theorem concurrent_uploads_conflict (st : St) (d1 d2 : FileData) (t1 t2 : Nat)
    (hdev : d2.device_id = d1.device_id) :
    (concurrentPairUploads st d1 d2 t1 t2).1 =
      .ok (mkFileRow st d1 (getNextFileVersion st d1.device_id) t1) ∧
    (concurrentPairUploads st d1 d2 t1 t2).2.1 = .error .conflict ∧
    (concurrentPairUploads st d1 d2 t1 t2).2.2.device_files =
      st.device_files ++ [mkFileRow st d1 (getNextFileVersion st d1.device_id) t1] ∧
    versionsOf (concurrentPairUploads st d1 d2 t1 t2).2.2 d1.device_id =
      versionsOf st d1.device_id ++ [getNextFileVersion st d1.device_id] := by
  have hfresh : (st.device_files.any (fun g =>
      g.device_id == d1.device_id && g.version == getNextFileVersion st d1.device_id)) = false := by
    rw [Bool.eq_false_iff]
    intro hc
    exact fresh_version_not_mem st d1.device_id ((any_version_iff st d1.device_id _).mp hc)
  have hconds : ((st.device_files ++
      [mkFileRow st d1 (getNextFileVersion st d1.device_id) t1]).any
      (fun g => g.device_id == d1.device_id &&
        g.version == getNextFileVersion st d1.device_id)) = true := by
    simp [List.any_append, mkFileRow]
  have hva := versionsOf_append st (mkFileRow st d1 (getNextFileVersion st d1.device_id) t1)
    d1.device_id
  unfold concurrentPairUploads insertDeviceFile
  simp only [mkFileRow] at hconds hva ⊢
  rw [hdev]
  simp only [hfresh, Bool.false_eq_true, if_false, hconds, if_true]
  refine ⟨trivial, trivial, trivial, ?_⟩
  rw [hva]
  simp

/-- Witness for the amended C2 at the concrete store. -/
theorem concurrent_uploads_conflict_witness :
    fdB.device_id = fdA.device_id ∧
    (concurrentPairUploads stX fdA fdB 10 11).2.1 = Except.error DbErr.conflict :=
  ⟨rfl, (concurrent_uploads_conflict stX fdA fdB 10 11 rfl).2.1⟩

/-- C3: assign sets `assigned_user_id` and `assigned_at` together (the latter
to the transition time) and checkin clears both together, so the
both-null-or-both-set invariant holds for every device after either
Assignment Manager operation, given it held for the untouched devices. -/
theorem assignment_fields_consistent (st : St) (i u t : Nat)
    (hinv : ∀ d ∈ st.devices, assignedConsistent d) :
    (∀ d ∈ (assignDeviceToUser st i u t).1.devices, assignedConsistent d) ∧
    (∀ d ∈ (assignDeviceToUser st i u t).1.devices, d.id = i →
        d.assigned_user_id = some u ∧ d.assigned_at = some t) ∧
    (∀ d ∈ (unassignDevice st i).1.devices, assignedConsistent d) ∧
    (∀ d ∈ (unassignDevice st i).1.devices, d.id = i →
        d.assigned_user_id = none ∧ d.assigned_at = none) := by
  refine ⟨?_, ?_, ?_, ?_⟩
  · intro d hd
    simp only [assignDeviceToUser, setAssign, List.mem_map] at hd
    obtain ⟨d0, hd0, rfl⟩ := hd
    by_cases h : (d0.id == i) = true
    · simp [h, assignedConsistent]
    · simpa [h] using hinv d0 hd0
  · intro d hd hid
    simp only [assignDeviceToUser, setAssign, List.mem_map] at hd
    obtain ⟨d0, hd0, rfl⟩ := hd
    by_cases h : (d0.id == i) = true
    · simp [h]
    · simp only [h, Bool.false_eq_true, if_false] at hid ⊢
      exact absurd hid (fun he => h (by simp [he]))
  · intro d hd
    simp only [unassignDevice, clearAssign, List.mem_map] at hd
    obtain ⟨d0, hd0, rfl⟩ := hd
    by_cases h : (d0.id == i) = true
    · simp [h, assignedConsistent]
    · simpa [h] using hinv d0 hd0
  · intro d hd hid
    simp only [unassignDevice, clearAssign, List.mem_map] at hd
    obtain ⟨d0, hd0, rfl⟩ := hd
    by_cases h : (d0.id == i) = true
    · simp [h]
    · simp only [h, Bool.false_eq_true, if_false] at hid ⊢
      exact absurd hid (fun he => h (by simp [he]))

/-- Witness for C3: device 1 of the concrete store after assigning user 2 at
time 7 carries both assignment fields and satisfies the invariant. -/
theorem assignment_fields_consistent_witness :
    assignedConsistent { devSw with assigned_user_id := some 2, assigned_at := some 7 } :=
  (assignment_fields_consistent stX 1 2 7 (by decide)).1 _ (by decide)

/-- C4: a `PUT /devices/:id` call on an existing device that passes validation
appends exactly one `status_changed` history entry carrying the old and the new
status when the supplied status differs from the stored one, and appends
nothing when the status field is absent or equals the current status. -/
theorem update_status_history (st : St) (p : Option SessionUser) (i : Nat) (b : PutBody)
    (ex : DeviceRow) (now : Nat)
    (hex : getDeviceById st i = some ex)
    (hip : putIpGuard b = false) (hty : putTypeGuard st b = false)
    (hman : putManGuard st b = false) (hst : putStatusGuard b = false) :
    isOkE (putDevice st p (some i) b now).1 = true ∧
    (putDevice st p (some i) b now).2.device_history =
      (match b.status with
       | some s =>
         if s = ex.status then st.device_history
         else st.device_history ++
           [{ id := nextHistId st, device_id := i, action := "status_changed",
              user_id := actorId p,
              details := some (.statusChanged ex.status s), created_at := now }]
       | none => st.device_history) := by
  obtain ⟨d0, hfind, hden⟩ := Option.map_eq_some'.mp hex
  have hstat : ex.status = d0.status := by
    rw [← hden]
    exact rfl
  unfold putDevice
  simp only [hip, hty, hman, hst, Bool.false_eq_true, if_false]
  simp only [getDeviceById, hfind, Option.map_some', hden]
  unfold updateDevice
  by_cases hnf : noUpdateFields (toUpdateData b) = true
  · have hbs : b.status = none := by
      simp only [noUpdateFields, toUpdateData, Bool.and_eq_true,
        Option.isNone_iff_eq_none] at hnf
      exact hnf.1.1.1.2
    have hne : (ex.status != d0.status) = false := by
      rw [hstat]
      simp
    simp [hnf, hfind, hne, hbs, isOkE]
  · rw [if_neg hnf, hfind]
    cases hbs : b.status with
    | none =>
      have hne : (ex.status != (applyUpdate d0 (toUpdateData b)).status) = false := by
        have : (applyUpdate d0 (toUpdateData b)).status = d0.status := by
          simp [applyUpdate, toUpdateData, hbs]
        rw [this, hstat]
        simp
      simp [hne, isOkE]
    | some s =>
      have hd2 : (applyUpdate d0 (toUpdateData b)).status = s := by
        simp [applyUpdate, toUpdateData, hbs]
      by_cases hss : s = ex.status
      · have hes : ex.status = s := hss.symm
        simp [hd2, hes, isOkE]
      · have hes : ¬ ex.status = s := fun he => hss he.symm
        have hbeq : (ex.status != (applyUpdate d0 (toUpdateData b)).status) = true := by
          rw [hd2]
          exact bne_iff_ne.mpr hes
        simp only [hbeq, if_true, eq_self_iff_true]
        simp [isOkE, addHistoryEntry, nextHistId, hd2, hss]

/-- Witness for C4: on the concrete store, changing the status to maintenance
appends exactly the `status_changed` entry, and changing only the notes
appends nothing. -/
theorem update_status_history_witness :
    (putDevice stX (some suAlice) (some 1) putMaint 99).2.device_history =
      stX.device_history ++
        [{ id := 2, device_id := 1, action := "status_changed", user_id := some 2,
           details := some (HDetails.statusChanged "active" "maintenance"), created_at := 99 }] ∧
    (putDevice stX (some suAlice) (some 1) putNotes 99).2.device_history =
      stX.device_history := by
  constructor
  · rw [(update_status_history stX (some suAlice) 1 putMaint (denorm stX devSw) 99
      (by decide) (by decide) (by decide) (by decide) (by decide)).2]
    decide
  · rw [(update_status_history stX (some suAlice) 1 putNotes (denorm stX devSw) 99
      (by decide) (by decide) (by decide) (by decide) (by decide)).2]
    decide

/-- C5 (code bug): the route passes the search and status filters on, but
`queries.getDevices` accepts no parameter, so the filters are ignored: the
`search=sw` result still contains `router-9`, which matches neither hostname
nor IP, and a status filter returns devices of other statuses too. -/
theorem getDevices_ignores_filters :
    (listDevices stX ⟨some "sw", none⟩).map (fun r => r.hostname) = ["sw-01", "router-9"] ∧
    (∃ r ∈ listDevices stX ⟨some "sw", none⟩, specSearchMatches "sw" r = false) ∧
    (listDevices stX ⟨none, some "maintenance"⟩).map (fun r => r.status) =
      ["active", "active"] := by
  decide

theorem find?_map_pres (l : List Device) (g : Device → Device)
    (hg : ∀ d, (g d).id = d.id) (i : Nat) :
    (l.map g).find? (fun d => d.id == i) = (l.find? (fun d => d.id == i)).map g := by
  induction l with
  | nil => rfl
  | cons x xs ih =>
    by_cases h : (x.id == i) = true
    · rw [List.map_cons, List.find?_cons_of_pos, List.find?_cons_of_pos]
      · rfl
      · exact h
      · simpa [hg] using h
    · rw [List.map_cons, List.find?_cons_of_neg, List.find?_cons_of_neg]
      · exact ih
      · exact h
      · simpa [hg] using h

theorem checkinRoute_ok (st : St) (p : SessionUser) (i t : Nat) (d0 : Device)
    (hfind : st.devices.find? (fun d => d.id == i) = some d0) :
    checkinRoute st (some p) (some i) t =
      (.ok (getDeviceById (clearAssign i st) i),
       (addHistoryEntry (clearAssign i st) i "checked_in" (optOfNat p.id)
          (some HDetails.empty) t).1) := by
  have hex : getDeviceById st i = some (denorm st d0) := by
    simp [getDeviceById, hfind]
  unfold checkinRoute
  simp only [hex]
  rfl

theorem addHistoryEntry_hist (st : St) (i : Nat) (a : String) (u : Option Nat)
    (dt : Option HDetails) (t : Nat) :
    (addHistoryEntry st i a u dt t).1.device_history = st.device_history ++
      [{ id := nextHistId st, device_id := i, action := a, user_id := u,
         details := dt, created_at := t }] := rfl

theorem clearAssign_hist (i : Nat) (st : St) :
    (clearAssign i st).device_history = st.device_history := rfl

theorem nextHistId_clearAssign (i : Nat) (st : St) :
    nextHistId (clearAssign i st) = nextHistId st := rfl

theorem nextHistId_addHistoryEntry (st : St) (i : Nat) (a : String) (u : Option Nat)
    (dt : Option HDetails) (t : Nat) :
    nextHistId (addHistoryEntry st i a u dt t).1 = nextHistId st + 1 := by
  unfold addHistoryEntry nextHistId
  simp only [List.map_append, List.map_singleton, listMax_append]
  have hmax : Nat.max (listMax (st.device_history.map (fun h => h.id)))
      (listMax (st.device_history.map (fun h => h.id)) + 1)
      = listMax (st.device_history.map (fun h => h.id)) + 1 :=
    Nat.max_eq_right (by omega)
  rw [hmax]

theorem clearAssign_clears (st : St) (i : Nat) :
    ∀ d ∈ (clearAssign i st).devices, d.id = i →
      d.assigned_user_id = none ∧ d.assigned_at = none := by
  intro d hd hdi
  simp only [clearAssign, List.mem_map] at hd
  obtain ⟨d0, hd0, rfl⟩ := hd
  by_cases h : (d0.id == i) = true
  · simp [h]
  · simp only [h, Bool.false_eq_true, if_false] at hdi ⊢
    exact absurd hdi (fun he => h (by simp [he]))

/-- C6: check-in is idempotent — two consecutive `POST /devices/:id/checkin`
calls both succeed, both leave the device with both assignment fields null,
and each appends one `checked_in` history entry with empty details, so two
entries are appended in total. -/
theorem checkin_idempotent (st : St) (p : SessionUser) (i t1 t2 : Nat) (d0 : Device)
    (hfind : st.devices.find? (fun d => d.id == i) = some d0) :
    isOkE (checkinRoute st (some p) (some i) t1).1 = true ∧
    isOkE (checkinRoute (checkinRoute st (some p) (some i) t1).2 (some p) (some i) t2).1
      = true ∧
    (∀ d ∈ (checkinRoute st (some p) (some i) t1).2.devices, d.id = i →
        d.assigned_user_id = none ∧ d.assigned_at = none) ∧
    (∀ d ∈ (checkinRoute (checkinRoute st (some p) (some i) t1).2
        (some p) (some i) t2).2.devices, d.id = i →
        d.assigned_user_id = none ∧ d.assigned_at = none) ∧
    (checkinRoute (checkinRoute st (some p) (some i) t1).2 (some p) (some i) t2).2.device_history
      = st.device_history ++
        [{ id := nextHistId st, device_id := i, action := "checked_in",
           user_id := optOfNat p.id, details := some HDetails.empty, created_at := t1 },
         { id := nextHistId st + 1, device_id := i, action := "checked_in",
           user_id := optOfNat p.id, details := some HDetails.empty, created_at := t2 }] := by
  have hg : ∀ d : Device,
      ((fun d : Device => if d.id == i then
          { d with assigned_user_id := none, assigned_at := none } else d) d).id = d.id := by
    intro d
    by_cases h : (d.id == i) = true <;> simp [h]
  have hd0i : (d0.id == i) = true := by
    have h := List.find?_some hfind
    simpa using h
  have h1 := checkinRoute_ok st p i t1 d0 hfind
  have hfind1 : (addHistoryEntry (clearAssign i st) i "checked_in" (optOfNat p.id)
      (some HDetails.empty) t1).1.devices.find? (fun d => d.id == i) =
      some { d0 with assigned_user_id := none, assigned_at := none } := by
    show (st.devices.map (fun d : Device => if d.id == i then
        { d with assigned_user_id := none, assigned_at := none } else d)).find?
      (fun d => d.id == i) = _
    rw [find?_map_pres _ _ hg, hfind]
    simp only [Option.map_some']
    rw [if_pos hd0i]
  have h2 := checkinRoute_ok
    (addHistoryEntry (clearAssign i st) i "checked_in" (optOfNat p.id)
      (some HDetails.empty) t1).1
    p i t2 { d0 with assigned_user_id := none, assigned_at := none } hfind1
  simp only [h1]
  simp only [h2]
  refine ⟨rfl, rfl, ?_, ?_, ?_⟩
  · exact fun d hd => clearAssign_clears st i d hd
  · exact fun d hd => clearAssign_clears _ i d hd
  · rw [addHistoryEntry_hist, clearAssign_hist, nextHistId_clearAssign,
      nextHistId_addHistoryEntry, nextHistId_clearAssign, addHistoryEntry_hist,
      clearAssign_hist, nextHistId_clearAssign, List.append_assoc]
    rfl

/-- Witness for C6: two check-ins on the concrete store append exactly two
`checked_in` entries with empty details. -/
theorem checkin_idempotent_witness :
    (checkinRoute (checkinRoute stX (some suAlice) (some 1) 20).2
        (some suAlice) (some 1) 21).2.device_history =
      stX.device_history ++
        [{ id := 2, device_id := 1, action := "checked_in", user_id := some 2,
           details := some HDetails.empty, created_at := 20 },
         { id := 3, device_id := 1, action := "checked_in", user_id := some 2,
           details := some HDetails.empty, created_at := 21 }] := by
  rw [(checkin_idempotent stX suAlice 1 20 21 devSw (by decide)).2.2.2.2]
  decide

/-- C7 counterexample: a valid assign whose separate history INSERT fails
returns an error to the caller, yet the device's assignment fields are already
persisted, so the devices table is not unchanged after the failed call. -/
theorem assign_history_failure_cex :
    isOkE (assignRoute stX (some suAlice) (some 1) (some 2) 99 false).1 = false ∧
    (assignRoute stX (some suAlice) (some 1) (some 2) 99 false).2 ≠ stX ∧
    ((assignRoute stX (some suAlice) (some 1) (some 2) 99 false).2.devices.find?
        (fun d => d.id == 1)).map (fun d => d.assigned_user_id) = some (some 2) ∧
    (assignRoute stX (some suAlice) (some 1) (some 2) 99 false).2.device_history =
      stX.device_history := by
  decide

/-- C7 (as amended): a failed create or addFile call leaves every table
unchanged, as does an assign that fails validation; but an assign that fails
at the history-append step only keeps `device_files` and `device_history`
unchanged — the device's assignment fields are already updated. -/
theorem failed_ops_no_partial_effects (st : St) :
    (∀ b now ok, isOkE (createRoute st b now ok).1 = false →
        (createRoute st b now ok).2 = st) ∧
    (∀ idp file now, isOkE (uploadRoute st idp file now).1 = false →
        (uploadRoute st idp file now).2 = st) ∧
    (∀ p idp uidp now, isOkE (assignRoute st p idp uidp now true).1 = false →
        (assignRoute st p idp uidp now true).2 = st) ∧
    (∀ p idp uidp now ok, isOkE (assignRoute st p idp uidp now ok).1 = false →
        (assignRoute st p idp uidp now ok).2.device_files = st.device_files ∧
        (assignRoute st p idp uidp now ok).2.device_history = st.device_history) := by
  refine ⟨?_, ?_, ?_, ?_⟩
  · intro b now ok
    unfold createRoute
    repeat' split
    all_goals simp [isOkE]
  · intro idp file now
    unfold uploadRoute
    repeat' split
    all_goals simp [isOkE]
  · intro p idp uidp now
    unfold assignRoute
    repeat' split
    all_goals simp_all [isOkE]
  · intro p idp uidp now ok
    unfold assignRoute
    repeat' split
    all_goals simp_all [isOkE, assignDeviceToUser, setAssign, addHistoryEntry]

/-- Witness for the amended C7 at concrete failing calls. -/
theorem failed_ops_no_partial_effects_witness :
    (createRoute stX bodyBad 5 true).2 = stX ∧
    (uploadRoute stX (some 7) (some emptyFile) 5).2 = stX ∧
    (assignRoute stX none (some 1) (some 2) 5 true).2 = stX ∧
    (assignRoute stX (some suAlice) (some 1) (some 2) 5 false).2.device_history =
      stX.device_history := by
  have h := failed_ops_no_partial_effects stX
  exact ⟨h.1 bodyBad 5 true (by decide), h.2.1 (some 7) (some emptyFile) 5 (by decide),
    h.2.2.1 none (some 1) (some 2) 5 (by decide),
    (h.2.2.2 (some suAlice) (some 1) (some 2) 5 false (by decide)).2⟩

/-- C8 counterexample: the history listing route serves an anonymous caller —
there is no `requireAuth` on it, so no authorization failure is signalled. -/
theorem history_no_auth_cex :
    isOkE (historyRoute stX none (some 1)).1 = true ∧
    (historyRoute stX none (some 1)).1 = .ok [histCreated] := by
  decide

/-- C8 (as amended): assign, checkin and the user listing reject an anonymous
caller with an authorization failure and perform no mutation, but the history
listing has no such gate and serves anonymous callers unchanged. -/
theorem auth_gating (st : St) :
    (∀ idp uidp now ok, assignRoute st none idp uidp now ok = (.error .unauthorized, st)) ∧
    (∀ idp now, checkinRoute st none idp now = (.error .unauthorized, st)) ∧
    usersRoute st none = (.error .unauthorized, st) ∧
    (∀ i, (getDeviceById st i).isSome = true →
        (historyRoute st none (some i)).1 = .ok (getDeviceHistory st i) ∧
        (historyRoute st none (some i)).2 = st) := by
  refine ⟨fun idp uidp now ok => rfl, fun idp now => rfl, rfl, ?_⟩
  intro i hi
  obtain ⟨r, hr⟩ := Option.isSome_iff_exists.mp hi
  unfold historyRoute
  simp [hr]

/-- Witness for the amended C8 at the concrete store. -/
theorem auth_gating_witness :
    assignRoute stX none (some 1) (some 2) 5 true = (.error .unauthorized, stX) ∧
    checkinRoute stX none (some 1) 5 = (.error .unauthorized, stX) ∧
    usersRoute stX none = (.error .unauthorized, stX) ∧
    (historyRoute stX none (some 1)).1 = .ok (getDeviceHistory stX 1) := by
  have h := auth_gating stX
  exact ⟨h.1 (some 1) (some 2) 5 true, h.2.1 (some 1) 5, h.2.2.1,
    (h.2.2.2 1 (by decide)).1⟩

theorem escapeCsv_ne_null (s : String) : escapeCsv s ≠ "null" := by
  intro h
  have h2 : (escapeCsv s).data = ("null" : String).data := congrArg String.data h
  unfold escapeCsv at h2
  rw [String.data_append, String.data_append] at h2
  have e1 : ("\"" : String).data = ['"'] := rfl
  have e2 : ("null" : String).data = ['n', 'u', 'l', 'l'] := rfl
  rw [e1, e2] at h2
  simp at h2

/-- C9: the CSV export renders one data row per device of the list result, in
list order, with the fixed seven-column layout; every field is double-quoted
with internal quotes doubled, absent optional values render as the empty
quoted string, and no field is ever the literal word null. -/
theorem export_csv_ok (st : St) (f : Filters) :
    (exportCsvRows st f).length = (listDevices st f).length ∧
    exportCsvRows st f = (listDevices st f).map csvRow ∧
    csvHeaders.length = 7 ∧
    (∀ r ∈ listDevices st f,
        (csvFields r).length = 7 ∧
        (r.manufacturer_name = none → (csvFields r).get? 3 = some (escapeCsv "")) ∧
        (r.assigned_to_name = none → (csvFields r).get? 5 = some (escapeCsv "")) ∧
        (r.location = none → (csvFields r).get? 6 = some (escapeCsv ""))) ∧
    escapeCsv "" = "\"\"" ∧
    (∀ s, escapeCsv s ≠ "null") := by
  refine ⟨List.length_map _ _, rfl, rfl, ?_, rfl, escapeCsv_ne_null⟩
  intro r _
  refine ⟨rfl, ?_, ?_, ?_⟩
  · intro h
    simp [csvFields, h]
  · intro h
    simp [csvFields, h]
  · intro h
    simp [csvFields, h]

/-- Witness for C9 at the concrete store. -/
theorem export_csv_ok_witness :
    (exportCsvRows stX ⟨none, none⟩).length = (listDevices stX ⟨none, none⟩).length ∧
    (csvFields (denorm stX devSw)).get? 6 = some (escapeCsv "") := by
  have h := export_csv_ok stX ⟨none, none⟩
  exact ⟨h.1, (h.2.2.2.1 (denorm stX devSw) (by decide)).2.2.2 (by decide)⟩

/-- C10 counterexample: a zero-byte upload is not rejected — the handler only
checks that `req.file` exists, so the empty file is accepted and a metadata
row is recorded. -/
theorem upload_empty_accepted_cex :
    isOkE (uploadRoute stX (some 1) (some emptyFile) 42).1 = true ∧
    (uploadRoute stX (some 1) (some emptyFile) 42).2.device_files.length =
      stX.device_files.length + 1 := by
  decide

/-- C10 (as amended): an upload for a missing device, an oversized upload, and
a request without a file are each rejected with no metadata row; but a
zero-byte upload passes the checks — it succeeds, records a row with the next
version, and stores `file_size` as null (because of `file_size || null`). -/
theorem upload_preconditions (st : St) (i : Nat) (f : UploadedFile) (now : Nat) :
    ((getDeviceById st i).isSome = false → f.size ≤ maxFileSize →
        uploadRoute st (some i) (some f) now = (.error .notFound, st)) ∧
    (f.size > maxFileSize →
        uploadRoute st (some i) (some f) now = (.error .serverError, st)) ∧
    ((getDeviceById st i).isSome = true →
        uploadRoute st (some i) none now = (.error .badRequest, st)) ∧
    ((getDeviceById st i).isSome = true → f.size = 0 →
        isOkE (uploadRoute st (some i) (some f) now).1 = true ∧
        (uploadRoute st (some i) (some f) now).2.device_files.length =
          st.device_files.length + 1 ∧
        resVersion (uploadRoute st (some i) (some f) now).1 =
          some (getNextFileVersion st i) ∧
        (∃ rec, (uploadRoute st (some i) (some f) now).1 = .ok rec ∧
          rec.file_size = none)) := by
  refine ⟨?_, ?_, ?_, ?_⟩
  · intro hd hsz
    have hov : overLimit (some f) = false := by
      simp only [overLimit, decide_eq_false_iff_not]
      omega
    cases hopt : getDeviceById st i with
    | some v =>
      rw [hopt] at hd
      simp at hd
    | none =>
      simp [uploadRoute, hov, hopt]
  · intro hsz
    have hov : overLimit (some f) = true := by
      simp only [overLimit, decide_eq_true_eq]
      omega
    simp [uploadRoute, hov]
  · intro hd
    obtain ⟨v, hv⟩ := Option.isSome_iff_exists.mp hd
    simp [uploadRoute, overLimit, hv]
  · intro hd hsz
    obtain ⟨v, hv⟩ := Option.isSome_iff_exists.mp hd
    have hov : overLimit (some f) = false := by
      simp only [overLimit, decide_eq_false_iff_not, hsz, maxFileSize]
      omega
    have hadd := addDeviceFile_ok st
      { device_id := i, filename := f.originalname,
        storage_path := storagePathFor i now f.originalname,
        content_type := some f.mimetype, file_size := some f.size } now
    simp only [uploadRoute, hov, Bool.false_eq_true, if_false, hv, hadd]
    refine ⟨rfl, by simp, by simp [resVersion, mkFileRow], ?_⟩
    exact ⟨_, rfl, by simp [mkFileRow, hsz, optOfNat]⟩

/-- Witness for the amended C10 at concrete uploads. -/
theorem upload_preconditions_witness :
    uploadRoute stX (some 7) (some emptyFile) 5 = (.error .notFound, stX) ∧
    uploadRoute stX (some 1) (some bigFile) 5 = (.error .serverError, stX) ∧
    uploadRoute stX (some 1) none 5 = (.error .badRequest, stX) ∧
    isOkE (uploadRoute stX (some 1) (some emptyFile) 5).1 = true := by
  have h7 := upload_preconditions stX 7 emptyFile 5
  have hb := upload_preconditions stX 1 bigFile 5
  have he := upload_preconditions stX 1 emptyFile 5
  exact ⟨h7.1 (by decide) (by decide), hb.2.1 (by decide), he.2.2.1 (by decide),
    (he.2.2.2 (by decide) (by decide)).1⟩

end NetInv
